import Mathlib

/-!
# StoryPath front-end: visit tracking, scoring and list maintenance

A shallow embedding of the state transitions of `src/components/Preview.jsx`
(the playthrough simulator), `src/components/LocationList.jsx`,
`src/components/ProjectList.jsx`, `src/components/EditLocation.jsx` and
`src/components/ProjectEdit.jsx`, followed by the properties proved about them.

Modelling conventions.

* A React component's `useState` cells become the fields of a state record; an
  event handler becomes a function from the state of the render in which it was
  created to the state after its setter calls have been applied.  Every handler
  below calls each setter at most once, with a value computed from the state of
  that render, so applying the setters in program order is exact.
* Identifiers are JavaScript values (numbers or strings); `===` and
  `Array.prototype.includes` on them are equality of those values.
* `score` and `score_points` are JavaScript numbers holding integers; they are
  modelled by `Int`, and the addition `score + location.score_points` by
  `jsAdd`, the binary64 addition, which is exact up to magnitude 2^53 and
  rounds beyond it.
* A handler that dereferences `undefined` throws a `TypeError`; setter calls made
  before the throw are still applied by React.  Such a handler returns the
  resulting state together with the flag `threw`.
* An awaited request to the data store either resolves or rejects; the handler
  takes that outcome as an argument.  Requests, navigation and logged errors
  of the submit handlers are returned as a list of effects in program order.
-/

namespace StoryPath

/-- Identifier values as they occur in fetched records and in the value of a
`<select>` element: a number or a string, compared by strict equality. -/
inductive JsId where
  | num (n : Int)
  | str (s : String)
deriving DecidableEq, Repr

/-- Project record, with the fields read by the components. -/
structure Project where
  id : JsId
  title : String
  description : String
  instructions : String
  initial_clue : String
  homescreen_display : String
  participant_scoring : String
  is_published : Bool
deriving DecidableEq, Repr

/-- Location record, with the fields read by the components. -/
structure Location where
  id : JsId
  project_id : JsId
  location_name : String
  location_trigger : String
  location_position : String
  score_points : Int
  clue : String
  location_content : String
deriving DecidableEq, Repr

/-! ## Preview.jsx -/

/-- State cells of `Preview` that the handlers write: `currentLocation`
(`null`/`undefined` is `none`), `visitedLocations` and `score`.  The cells
`project` and `locations` are written only by the mount effect and are passed to
the handlers as arguments. -/
structure SimState where
  currentLocation : Option Location
  visitedLocations : List JsId
  score : Int
deriving DecidableEq, Repr

/-- Result of running an event handler: the state after the setter calls that
were reached, and whether the handler ended by throwing. -/
structure Outcome where
  state : SimState
  threw : Bool
deriving DecidableEq, Repr

/-- The bound 2^53: every integer of at most this magnitude is a binary64
value, and binary64 addition of two such integers is exact when the result is
again within the bound. -/
def maxExact : Nat := 9007199254740992

/-- Number of halvings that bring `n` below 2^53 (`fuel` bounds the search;
`fuel = n` is enough). -/
def excessBits : Nat → Nat → Nat
  | 0, _ => 0
  | fuel + 1, n => if n < maxExact then 0 else excessBits fuel (n / 2) + 1

/-- Nearest binary64 value of a natural number, ties to the even mantissa, for
values in the finite range of binary64 (below 2^1024). -/
def roundNat (n : Nat) : Nat :=
  if n ≤ maxExact then n
  else
    let u := 2 ^ excessBits n n
    let q := n / u
    let r := n % u
    if 2 * r < u then q * u
    else if u < 2 * r then (q + 1) * u
    else if q % 2 = 0 then q * u
    else (q + 1) * u

/-- Nearest binary64 value of an integer in the finite range. -/
def roundDouble (x : Int) : Int :=
  if x < 0 then -(roundNat x.natAbs : Int) else (roundNat x.natAbs : Int)

/-- JavaScript `a + b` on two numbers that hold integers: the exact sum rounded
to the nearest binary64 value (for a finite result). -/
def jsAdd (a b : Int) : Int :=
  roundDouble (a + b)

/-- State right after both fetches of the mount effect have resolved:
`currentLocation = locationsData[0]`, `visitedLocations = []`, `score = 0`. -/
def ready (locations : List Location) : SimState :=
  { currentLocation := locations.head?, visitedLocations := [], score := 0 }

/-- `trackVisit(location)` of `Preview.jsx`, for a location object and a loaded
project.  `score + location.score_points` is the binary64 addition `jsAdd`.
The flat increment `score + 1` is written as integer addition: it is exact
while the score is below 2^53, which holds wherever this branch runs in a
session, the score being then the number of visited ids of an array; statements
about arbitrary states carry the bound. -/
def trackVisit (project : Project) (location : Location) (s : SimState) : SimState :=
  if ¬ location.id ∈ s.visitedLocations then
    let s1 := { s with visitedLocations := s.visitedLocations ++ [location.id] }
    if project.participant_scoring = "Number of Scanned QR Codes" then
      { s1 with score := s.score + 1 }
    else if project.participant_scoring = "Number of Locations Entered" then
      { s1 with score := jsAdd s.score location.score_points }
    else
      s1
  else
    s

/-- `handleLocationChange(locationId)` of `Preview.jsx`.  `locations.find`
returns the first record whose id is strictly equal to `locationId`, or
`undefined`; `currentLocation` is set to that result, and `trackVisit` is called
on it, which throws on `undefined` when it reads `location.id`. -/
def handleLocationChange (project : Project) (locations : List Location)
    (locationId : JsId) (s : SimState) : Outcome :=
  match locations.find? (fun location => decide (location.id = locationId)) with
  | some selectedLocation =>
      { state := trackVisit project selectedLocation
                   { s with currentLocation := some selectedLocation },
        threw := false }
  | none =>
      { state := { s with currentLocation := none }, threw := true }

/-- State after a sequence of selections, one event per render. -/
def simulate (project : Project) (locations : List Location) (ids : List JsId)
    (s : SimState) : SimState :=
  ids.foldl (fun st id => (handleLocationChange project locations id st).state) s

/-- Score contribution of one location under the project's scoring policy:
`1`, its `score_points`, or nothing. -/
def contribution (project : Project) (location : Location) : Int :=
  if project.participant_scoring = "Number of Scanned QR Codes" then 1
  else if project.participant_scoring = "Number of Locations Entered" then
    location.score_points
  else 0

/-- Score contribution of the location that an id resolves to in the fetched
set (nothing when it resolves to none). -/
def contributionOf (project : Project) (locations : List Location) (id : JsId) : Int :=
  match locations.find? (fun location => decide (location.id = id)) with
  | some l => contribution project l
  | none => 0

/-- Field `score_points` of the location that an id resolves to in the fetched
set (`0` when it resolves to none). -/
def pointsOf (locations : List Location) (id : JsId) : Int :=
  match locations.find? (fun location => decide (location.id = id)) with
  | some l => l.score_points
  | none => 0

/-! ## LocationList.jsx -/

/-- State cells of `LocationList`. -/
structure LocationListState where
  locations : List Location
  error : Option String
  qrCodeLocation : Option Location
deriving DecidableEq, Repr

/-- `handleDelete(id)` of `LocationList.jsx`; `remoteOk` tells whether the
awaited `deleteLocation(id)` resolved (`true`) or rejected (`false`). -/
def handleDelete (remoteOk : Bool) (id : JsId) (s : LocationListState) :
    LocationListState :=
  if remoteOk then
    { s with locations := s.locations.filter (fun location => decide (location.id ≠ id)) }
  else
    { s with error := some "Failed to delete location." }

/-- `handlePrintQRCode(location)` of `LocationList.jsx`. -/
def handlePrintQRCode (location : Location) (s : LocationListState) : LocationListState :=
  { s with qrCodeLocation := some location }

/-- The click handler of the "Close QR Code" button: `setQrCodeLocation(null)`. -/
def closeQRCode (s : LocationListState) : LocationListState :=
  { s with qrCodeLocation := none }

/-- Text of an identifier when it is interpolated into a template literal. -/
def JsId.toText : JsId → String
  | .num n => toString n
  | .str s => s

/-- The `value` handed to the `QRCode` element of `LocationList.jsx`, when the
element is rendered at all: the section is guarded by `qrCodeLocation &&`. -/
def qrCodeValue (s : LocationListState) : Option String :=
  match s.qrCodeLocation with
  | some qrCodeLocation => some ("Location ID: " ++ qrCodeLocation.id.toText)
  | none => none

/-! ## ProjectList.jsx -/

/-- State cell of `ProjectList`. -/
structure ProjectListState where
  projectList : List Project
deriving DecidableEq, Repr

/-- The two statements `const newList = [...list]; newList.splice(index, 1)`,
for an index produced by `Array.prototype.map` (a natural number): the copy
without the element at `index`, or the whole copy when `index` is past the end. -/
def spliceOne {α : Type} (index : Nat) (list : List α) : List α :=
  list.eraseIdx index

/-- `handleRemove(id, index)` of `ProjectList.jsx`; `deleteProject id` tells
whether the awaited remote call for that id resolved (`true`) or rejected
(`false`, after which only an error is logged). -/
def handleRemove (deleteProject : JsId → Bool) (id : JsId) (index : Nat)
    (s : ProjectListState) : ProjectListState :=
  if deleteProject id then
    { s with projectList := spliceOne index s.projectList }
  else
    s

/-- The arguments `(entry.id, index)` that the Delete button of each rendered row
passes to `handleRemove`: `projectList.map((entry, index) => ...)`. -/
def deleteButtons (s : ProjectListState) : List (JsId × Nat) :=
  s.projectList.enum.map (fun r => (r.2.id, r.1))

/-! ## Truthiness -/

/-- JavaScript truthiness of a cell holding `null` or an identifier: `null`,
the number `0` and the empty string are falsy. -/
def truthyId : Option JsId → Bool
  | none => false
  | some (.num n) => decide (n ≠ 0)
  | some (.str s) => decide (s ≠ "")

/-- JavaScript truthiness of a route parameter: `undefined` and the empty
string are falsy. -/
def truthyParam : Option String → Bool
  | none => false
  | some s => decide (s ≠ "")

/-! ## EditLocation.jsx -/

namespace EditLocation

/-- State cells of `EditLocation`. -/
structure Form where
  locationName : String
  locationTrigger : String
  locationPosition : String
  scorePoints : Int
  clue : String
  locationContent : String
  projectId : Option JsId
deriving DecidableEq, Repr

/-- The object `locationData` built by `handleSubmit`. -/
structure LocationData where
  project_id : JsId
  location_name : String
  location_trigger : String
  location_position : String
  score_points : Int
  clue : String
  location_content : String
deriving DecidableEq, Repr

/-- What `handleSubmit` does to the outside, in program order. -/
inductive Effect where
  | logError (message : String)
  | updateLocation (id : String) (data : LocationData)
  | createLocation (data : LocationData)
  | navigate (path : String)
deriving DecidableEq, Repr

/-- Whether an effect is a request to the data store. -/
def Effect.isRequest : Effect → Bool
  | .updateLocation _ _ => true
  | .createLocation _ => true
  | _ => false

/-- Whether an effect is a navigation. -/
def Effect.isNavigate : Effect → Bool
  | .navigate _ => true
  | _ => false

/-- Form state after a handler has run, with its effects. -/
structure Result where
  form : Form
  effects : List Effect
deriving DecidableEq, Repr

/-- `handleSubmit(e)` of `EditLocation.jsx`.  `id` is the route parameter,
`remoteOk` tells whether the awaited request resolved.  The handler calls no
setter; `e.preventDefault()` is left out of the effects. -/
def handleSubmit (id : Option String) (remoteOk : Bool) (f : Form) : Result :=
  match f.projectId with
  | some projectId =>
    if ¬ truthyId (some projectId) then
      { form := f, effects := [.logError "Project ID is missing!"] }
    else
      let locationData : LocationData :=
        { project_id := projectId, location_name := f.locationName,
          location_trigger := f.locationTrigger, location_position := f.locationPosition,
          score_points := f.scorePoints, clue := f.clue,
          location_content := f.locationContent }
      let request : Effect :=
        match id with
        | some i => if truthyParam (some i) then .updateLocation i locationData
                    else .createLocation locationData
        | none => .createLocation locationData
      if remoteOk then
        { form := f,
          effects := [request, .navigate ("/project/" ++ projectId.toText ++ "/locations")] }
      else
        { form := f, effects := [request, .logError "Failed to save location:"] }
  | none =>
    { form := f, effects := [.logError "Project ID is missing!"] }

end EditLocation

/-! ## ProjectEdit.jsx -/

namespace ProjectEdit

/-- State cells of `AddEditProject`. -/
structure Form where
  title : String
  description : String
  instructions : String
  initClue : String
  homeDisplay : String
  participantScoring : String
  published : Bool
deriving DecidableEq, Repr

/-- The object `project` built by `handleSubmit`: the seven authored fields. -/
structure ProjectData where
  title : String
  description : String
  instructions : String
  initial_clue : String
  homescreen_display : String
  participant_scoring : String
  is_published : Bool
deriving DecidableEq, Repr

/-- The payload that `handleSubmit` builds from the form. -/
def payload (f : Form) : ProjectData :=
  { title := f.title, description := f.description, instructions := f.instructions,
    initial_clue := f.initClue, homescreen_display := f.homeDisplay,
    participant_scoring := f.participantScoring, is_published := f.published }

/-- What `handleSubmit` does to the outside, in program order. -/
inductive Effect where
  | logError (message : String)
  | updateProject (id : String) (data : ProjectData)
  | createProject (data : ProjectData)
  | navigate (path : String)
deriving DecidableEq, Repr

/-- `handleSubmit(e)` of `ProjectEdit.jsx`: the effects, in program order.  `id`
is the route parameter, `remoteOk` tells whether the awaited request resolved. -/
def handleSubmit (id : Option String) (remoteOk : Bool) (f : Form) : List Effect :=
  let project := payload f
  let request : Effect :=
    match id with
    | some i => if truthyParam (some i) then .updateProject i project
                else .createProject project
    | none => .createProject project
  if remoteOk then [request, .navigate "/project"]
  else [request, .logError "Failed to save the project:"]

/-- The body of `fetchProject` in the mount effect, after `getProject(id)` has
resolved to `project`: the seven setters are called with the fields of
`project[0]`.  On an empty collection `project[0]` is `undefined`, the first
field access throws and no setter is reached (`none`). -/
def fetchProject (project : List Project) : Option Form :=
  match project with
  | p :: _ =>
    some { title := p.title, description := p.description, instructions := p.instructions,
           initClue := p.initial_clue, homeDisplay := p.homescreen_display,
           participantScoring := p.participant_scoring, published := p.is_published }
  | [] => none

end ProjectEdit

/-! ## The data store -/

/-- Modelled from the spec: the Data Access Collaborator behind `api.js`, which
is not among the sources.  It keeps the project records and assigns identifiers
(section 6: `createProject(Project) -> Project`, `getProject(id) -> list<Project>`,
a singleton wrapped in a collection). -/
structure Store where
  nextId : Nat
  projects : List Project
deriving DecidableEq, Repr

/-- Modelled from the spec: `createProject` of `api.js`, absent from the
sources.  The store keeps the seven authored fields as given, assigns the next
identifier, and returns the stored record. -/
def Store.createProject (st : Store) (d : ProjectEdit.ProjectData) : Store × Project :=
  let created : Project :=
    { id := .num st.nextId, title := d.title, description := d.description,
      instructions := d.instructions, initial_clue := d.initial_clue,
      homescreen_display := d.homescreen_display,
      participant_scoring := d.participant_scoring, is_published := d.is_published }
  ({ nextId := st.nextId + 1, projects := st.projects ++ [created] }, created)

/-- Modelled from the spec: `getProject` of `api.js`, absent from the sources.
The records whose identifier is the requested one, as a collection. -/
def Store.getProject (st : Store) (id : JsId) : List Project :=
  st.projects.filter (fun p => decide (p.id = id))

/-- Well-formed store: the identifier it will assign next is not in use. -/
def Store.Fresh (st : Store) : Prop :=
  ∀ p ∈ st.projects, p.id ≠ .num st.nextId

/-! ## Preview.jsx: rendering -/

/-- Rendered elements of the simulator's home screen, by role. -/
inductive Node where
  | title (text : String)
  | instructions (text : String)
  | initialClue (text : String)
  | allLocations (names : List String)
  | points (score : Int)
  | locationsVisited (visited : Nat) (total : Nat)
  | locationName (text : String)
  | locationTrigger (text : String)
  | locationPosition (text : String)
  | clue (text : String)
  | content (html : String)
deriving DecidableEq, Repr

/-- `renderHomescreen()` of `Preview.jsx`, for a loaded project. -/
def renderHomescreen (project : Project) (locations : List Location) : List Node :=
  [ .title project.title,
    .instructions project.instructions,
    if project.homescreen_display = "Display initial clue" then
      .initialClue project.initial_clue
    else
      .allLocations (locations.map (fun location => location.location_name)) ]

/-- `renderLocationContent()` of `Preview.jsx`; the clue is rendered when it is
a non-empty string. -/
def renderLocationContent (s : SimState) : List Node :=
  match s.currentLocation with
  | none => []
  | some currentLocation =>
    [ .locationName currentLocation.location_name,
      .locationTrigger currentLocation.location_trigger,
      .locationPosition currentLocation.location_position ] ++
    (if currentLocation.clue ≠ "" then [.clue currentLocation.clue] else []) ++
    [ .content currentLocation.location_content ]

/-- What `Preview` returns. -/
inductive Screen where
  | loading
  | preview (heading : String) (options : List (JsId × String)) (homescreen : List Node)
deriving DecidableEq, Repr

/-- The return value of `Preview`: "Loading..." until the project and a
non-empty location list are present, then the heading, the `<select>` used to
change location, and the `homescreen` block.  `renderHomescreen` is not called
here. -/
def render (project : Option Project) (locations : List Location) (s : SimState) : Screen :=
  match project with
  | none => .loading
  | some project =>
    if locations.length = 0 then .loading
    else
      .preview (project.title ++ " - Preview")
        (locations.map (fun location => (location.id, location.location_name)))
        ([ .title project.title, .instructions project.instructions ] ++
          (if project.homescreen_display = "Display initial clue" then
            [.initialClue project.initial_clue] else []) ++
          [ .points s.score,
            .locationsVisited s.visitedLocations.length locations.length ] ++
          renderLocationContent s)

/-- The `homescreen` block of a screen (nothing while loading). -/
def Screen.homescreen : Screen → List Node
  | .loading => []
  | .preview _ _ nodes => nodes

/-- Whether a node is an enumeration of location names. -/
def Node.isAllLocations : Node → Bool
  | .allLocations _ => true
  | _ => false

/-! ## Sample data -/

/-- A project with the given scoring policy. -/
def sampleProject (scoring : String) : Project :=
  { id := .num 1, title := "Tour", description := "", instructions := "Walk",
    initial_clue := "", homescreen_display := "Display initial clue",
    participant_scoring := scoring, is_published := true }

/-- A location with the given id, name and points. -/
def sampleLocation (id : JsId) (name : String) (points : Int) : Location :=
  { id := id, project_id := .num 1, location_name := name,
    location_trigger := "Location Entry", location_position := "0, 0",
    score_points := points, clue := "", location_content := "" }

/-- Locations A (10 points) and B (5 points). -/
def sampleAB : List Location :=
  [sampleLocation (.str "A") "A" 10, sampleLocation (.str "B") "B" 5]

/-- Locations A (2^53 points) and B (1 point). -/
def sampleBig : List Location :=
  [sampleLocation (.str "A") "A" 9007199254740992, sampleLocation (.str "B") "B" 1]

/-! ## Auxiliary facts -/

theorem jsAdd_exact (a b : Int) (h : (a + b).natAbs ≤ maxExact) : jsAdd a b = a + b := by
  unfold jsAdd roundDouble roundNat
  simp only [h, if_true]
  split_ifs <;> omega

theorem jsAdd_nonneg (a b : Int) (ha : 0 ≤ a) (hb : 0 ≤ b) : 0 ≤ jsAdd a b := by
  unfold jsAdd roundDouble
  rw [if_neg (by omega)]
  exact Int.ofNat_nonneg _

theorem find_id_some {ls : List Location} {id : JsId} {l : Location}
    (h : ls.find? (fun location => decide (location.id = id)) = some l) :
    l ∈ ls ∧ l.id = id := by
  refine ⟨List.mem_of_find?_eq_some h, ?_⟩
  have := List.find?_some h
  simpa using this

theorem find_id_of_known {ls : List Location} {id : JsId}
    (h : ∃ l ∈ ls, l.id = id) :
    ∃ l, ls.find? (fun location => decide (location.id = id)) = some l := by
  cases hf : ls.find? (fun location => decide (location.id = id)) with
  | some l => exact ⟨l, rfl⟩
  | none =>
    obtain ⟨l, hl, hid⟩ := h
    have := List.find?_eq_none.mp hf l hl
    simp [hid] at this

theorem trackVisit_of_mem (p : Project) (l : Location) (s : SimState)
    (h : l.id ∈ s.visitedLocations) : trackVisit p l s = s := by
  simp [trackVisit, h]

theorem trackVisit_of_not_mem (p : Project) (l : Location) (s : SimState)
    (h : l.id ∉ s.visitedLocations) :
    (trackVisit p l s).visitedLocations = s.visitedLocations ++ [l.id] ∧
    (trackVisit p l s).currentLocation = s.currentLocation := by
  unfold trackVisit
  simp only [h, not_false_eq_true, if_true]
  split_ifs <;> simp

/-- Score after a first visit, branch by branch. -/
theorem trackVisit_score_of_not_mem (p : Project) (l : Location) (s : SimState)
    (h : l.id ∉ s.visitedLocations) :
    (trackVisit p l s).score =
      if p.participant_scoring = "Number of Scanned QR Codes" then s.score + 1
      else if p.participant_scoring = "Number of Locations Entered" then
        jsAdd s.score l.score_points
      else s.score := by
  unfold trackVisit
  simp only [h, not_false_eq_true, if_true]
  split_ifs <;> rfl

/-- Within the exact range a first visit adds the location's contribution. -/
theorem trackVisit_score_exact (p : Project) (l : Location) (s : SimState)
    (h : l.id ∉ s.visitedLocations)
    (hb : p.participant_scoring = "Number of Locations Entered" →
      (s.score + l.score_points).natAbs ≤ maxExact) :
    (trackVisit p l s).score = s.score + contribution p l := by
  rw [trackVisit_score_of_not_mem p l s h]
  unfold contribution
  split_ifs with h1 h2
  · rfl
  · exact jsAdd_exact _ _ (hb h2)
  · simp

/-- One selection either leaves `visitedLocations` and `score` as they were
(the id is already visited, or resolves to no location), or appends the id and
updates the score as a first visit of the location it resolves to does. -/
theorem select_step (p : Project) (ls : List Location) (id : JsId) (s : SimState) :
    ((handleLocationChange p ls id s).state.visitedLocations = s.visitedLocations ∧
      (handleLocationChange p ls id s).state.score = s.score ∧
      (id ∈ s.visitedLocations ∨
        ls.find? (fun location => decide (location.id = id)) = none)) ∨
    (id ∉ s.visitedLocations ∧
      ∃ l, ls.find? (fun location => decide (location.id = id)) = some l ∧
        (handleLocationChange p ls id s).state.visitedLocations = s.visitedLocations ++ [id] ∧
        (handleLocationChange p ls id s).state.score =
          (trackVisit p l s).score ∧ l.id ∉ s.visitedLocations) := by
  unfold handleLocationChange
  cases hf : ls.find? (fun location => decide (location.id = id)) with
  | none => left; simp
  | some l =>
    have hid : l.id = id := (find_id_some hf).2
    by_cases hm : id ∈ s.visitedLocations
    · left
      have hm2 : l.id ∈ ({ s with currentLocation := some l } : SimState).visitedLocations := by
        simpa [hid] using hm
      simp only [trackVisit_of_mem p l _ hm2]
      exact ⟨trivial, trivial, Or.inl hm⟩
    · right
      have hm1 : l.id ∉ s.visitedLocations := by simpa [hid] using hm
      have hm2 : l.id ∉ ({ s with currentLocation := some l } : SimState).visitedLocations := by
        simpa [hid] using hm
      refine ⟨hm, l, rfl, ?_, ?_, hm1⟩
      · simpa [hid] using (trackVisit_of_not_mem p l _ hm2).1
      · show (trackVisit p l { s with currentLocation := some l }).score = _
        rw [trackVisit_score_of_not_mem p l _ hm2, trackVisit_score_of_not_mem p l s hm1]

theorem simulate_nil (p : Project) (ls : List Location) (s : SimState) :
    simulate p ls [] s = s := rfl

theorem simulate_cons (p : Project) (ls : List Location) (id : JsId) (ids : List JsId)
    (s : SimState) :
    simulate p ls (id :: ids) s = simulate p ls ids (handleLocationChange p ls id s).state := rfl

/-- Invariant of the visited list over a run of selections started in a state
whose visited list has no repeats. -/
theorem simulate_visited_inv (p : Project) (ls : List Location) (ids : List JsId) :
    ∀ s : SimState, s.visitedLocations.Nodup →
      (simulate p ls ids s).visitedLocations.Nodup ∧
      s.visitedLocations <+: (simulate p ls ids s).visitedLocations ∧
      (∀ i, i ∈ (simulate p ls ids s).visitedLocations ↔
        i ∈ s.visitedLocations ∨ (i ∈ ids ∧ ∃ l ∈ ls, l.id = i)) := by
  induction ids with
  | nil =>
    intro s hnd
    exact ⟨hnd, List.prefix_refl _, by simp [simulate_nil]⟩
  | cons id ids ih =>
    intro s hnd
    rw [simulate_cons]
    rcases select_step p ls id s with ⟨hv, -, hwhy⟩ | ⟨hnm, l, hl, hv, -, -⟩
    · obtain ⟨a, c, d⟩ := ih (handleLocationChange p ls id s).state (by rw [hv]; exact hnd)
      refine ⟨a, by rw [hv] at c; exact c, ?_⟩
      intro i
      rw [d, hv]
      constructor
      · rintro (h | ⟨h, hk⟩)
        · exact Or.inl h
        · exact Or.inr ⟨List.mem_cons_of_mem _ h, hk⟩
      · rintro (h | ⟨h, hk⟩)
        · exact Or.inl h
        · rcases List.mem_cons.mp h with rfl | h
          · rcases hwhy with hm | hnone
            · exact Or.inl hm
            · obtain ⟨l, hl⟩ := find_id_of_known hk
              rw [hl] at hnone
              cases hnone
          · exact Or.inr ⟨h, hk⟩
    · obtain ⟨a, c, d⟩ := ih (handleLocationChange p ls id s).state
        (by rw [hv]; exact List.Nodup.append hnd (List.nodup_singleton _) (by simpa using hnm))
      refine ⟨a, ?_, ?_⟩
      · rw [hv] at c
        exact (List.prefix_append _ _).trans c
      · intro i
        rw [d, hv]
        have hk : ∃ l ∈ ls, l.id = id := ⟨l, (find_id_some hl).1, (find_id_some hl).2⟩
        simp only [List.mem_append, List.mem_singleton]
        constructor
        · rintro ((h | rfl) | ⟨h, hk2⟩)
          · exact Or.inl h
          · exact Or.inr ⟨List.mem_cons_self _ _, hk⟩
          · exact Or.inr ⟨List.mem_cons_of_mem _ h, hk2⟩
        · rintro (h | ⟨h, hk2⟩)
          · exact Or.inl (Or.inl h)
          · rcases List.mem_cons.mp h with rfl | h
            · exact Or.inl (Or.inr rfl)
            · exact Or.inr ⟨h, hk2⟩

/-- The visited list of a run started in the fresh Ready state: no repeats,
and exactly the selected ids that resolve to a fetched location. -/
theorem simulate_ready_inv (p : Project) (ls : List Location) (ids : List JsId) :
    (simulate p ls ids (ready ls)).visitedLocations.Nodup ∧
    (∀ i, i ∈ (simulate p ls ids (ready ls)).visitedLocations ↔
      (i ∈ ids ∧ ∃ l ∈ ls, l.id = i)) := by
  obtain ⟨a, -, d⟩ := simulate_visited_inv p ls ids (ready ls) (by simp [ready])
  refine ⟨a, ?_⟩
  intro i
  rw [d]
  simp [ready]

/-- When every selected id is known, the visited list is a rearrangement of
the distinct selected ids. -/
theorem simulate_ready_perm (p : Project) (ls : List Location) (ids : List JsId)
    (hknown : ∀ id ∈ ids, ∃ l ∈ ls, l.id = id) :
    (simulate p ls ids (ready ls)).visitedLocations.Perm ids.dedup := by
  obtain ⟨a, d⟩ := simulate_ready_inv p ls ids
  rw [List.perm_ext_iff_of_nodup a (List.nodup_dedup _)]
  intro i
  rw [d, List.mem_dedup]
  exact ⟨fun h => h.1, fun h => ⟨h, hknown i h⟩⟩

theorem natAbs_sum_map_le (f : JsId → Int) (xs : List JsId) :
    ((xs.map f).sum).natAbs ≤ (xs.map (fun i => (f i).natAbs)).sum := by
  induction xs with
  | nil => simp
  | cons x xs ih =>
    simp only [List.map_cons, List.sum_cons]
    exact (Int.natAbs_add_le _ _).trans (Nat.add_le_add_left ih _)

theorem sum_map_le_of_prefix (g : JsId → Nat) {xs ys : List JsId} (h : xs <+: ys) :
    (xs.map g).sum ≤ (ys.map g).sum := by
  obtain ⟨t, rfl⟩ := h
  simp

/-- Over a run, the score stays the sum of the contributions of the visited
ids, provided that under 'Number of Locations Entered' the magnitudes of the
contributions of the ids visited at the end add up to at most 2^53. -/
theorem simulate_score_inv (p : Project) (ls : List Location) (ids : List JsId) :
    ∀ s : SimState, s.visitedLocations.Nodup →
      s.score = (s.visitedLocations.map (contributionOf p ls)).sum →
      (p.participant_scoring = "Number of Locations Entered" →
        ((simulate p ls ids s).visitedLocations.map
          (fun i => (contributionOf p ls i).natAbs)).sum ≤ maxExact) →
      (simulate p ls ids s).score =
        ((simulate p ls ids s).visitedLocations.map (contributionOf p ls)).sum := by
  induction ids with
  | nil =>
    intro s _ hsc _
    exact hsc
  | cons id ids ih =>
    intro s hnd hsc hb
    rw [simulate_cons] at hb ⊢
    rcases select_step p ls id s with ⟨hv, hs, -⟩ | ⟨hnm, l, hl, hv, hs, hm1⟩
    · exact ih (handleLocationChange p ls id s).state (by rw [hv]; exact hnd)
        (by rw [hv, hs]; exact hsc) hb
    · have hnd1 : (handleLocationChange p ls id s).state.visitedLocations.Nodup := by
        rw [hv]
        exact List.Nodup.append hnd (List.nodup_singleton _) (by simpa using hnm)
      have hc : contributionOf p ls id = contribution p l := by
        simp [contributionOf, hl]
      have hsum : ((s.visitedLocations ++ [id]).map (contributionOf p ls)).sum =
          s.score + contribution p l := by
        simp [hsc, hc]
      apply ih (handleLocationChange p ls id s).state hnd1 _ hb
      rw [hv, hs, hsum]
      apply trackVisit_score_exact p l s hm1
      intro hpts
      have hpre := (simulate_visited_inv p ls ids _ hnd1).2.1
      rw [hv] at hpre
      have h1 := natAbs_sum_map_le (contributionOf p ls) (s.visitedLocations ++ [id])
      have h2 := sum_map_le_of_prefix (fun i => (contributionOf p ls i).natAbs) hpre
      have h3 := hb hpts
      have hpt : contribution p l = l.score_points := by
        unfold contribution
        rw [hpts]
        simp
      rw [hsum, hpt] at h1
      omega

/-- The score invariant, for runs started in the fresh Ready state. -/
theorem simulate_score_inv_ready (p : Project) (ls : List Location) (ids : List JsId)
    (hb : p.participant_scoring = "Number of Locations Entered" →
      ((simulate p ls ids (ready ls)).visitedLocations.map
        (fun i => (contributionOf p ls i).natAbs)).sum ≤ maxExact) :
    (simulate p ls ids (ready ls)).score =
      ((simulate p ls ids (ready ls)).visitedLocations.map (contributionOf p ls)).sum :=
  simulate_score_inv p ls ids (ready ls) (by simp [ready]) (by simp [ready]) hb

theorem simulate_score_nonneg (p : Project) (ls : List Location)
    (hpts : p.participant_scoring = "Number of Locations Entered" →
      ∀ l ∈ ls, 0 ≤ l.score_points) (ids : List JsId) :
    ∀ s : SimState, 0 ≤ s.score → 0 ≤ (simulate p ls ids s).score := by
  induction ids with
  | nil => intro s hs; exact hs
  | cons id ids ih =>
    intro s h0
    rw [simulate_cons]
    apply ih
    rcases select_step p ls id s with ⟨-, hs, -⟩ | ⟨-, l, hl, -, hs, hm1⟩
    · rw [hs]; exact h0
    · rw [hs, trackVisit_score_of_not_mem p l s hm1]
      split_ifs with h1 h2
      · omega
      · exact jsAdd_nonneg _ _ h0 (hpts h2 l (find_id_some hl).1)
      · exact h0

theorem sum_map_of_const (f : JsId → Int) (c : Int) (xs : List JsId)
    (h : ∀ i ∈ xs, f i = c) : (xs.map f).sum = c * xs.length := by
  induction xs with
  | nil => simp
  | cons x xs ih =>
    have hx : f x = c := h x (List.mem_cons_self _ _)
    have hxs : ∀ i ∈ xs, f i = c := fun i hi => h i (List.mem_cons_of_mem _ hi)
    simp only [List.map_cons, List.sum_cons, List.length_cons, ih hxs, hx]
    push_cast
    ring

theorem select_known_no_throw (p : Project) (ls : List Location) (id : JsId) (s : SimState)
    (h : ∃ l ∈ ls, l.id = id) : (handleLocationChange p ls id s).threw = false := by
  obtain ⟨l, hl⟩ := find_id_of_known h
  simp [handleLocationChange, hl]

theorem contributionOf_eq_pointsOf (p : Project) (ls : List Location)
    (hpol : p.participant_scoring = "Number of Locations Entered") :
    contributionOf p ls = pointsOf ls := by
  funext i
  unfold contributionOf pointsOf
  cases ls.find? (fun location => decide (location.id = i)) with
  | none => rfl
  | some l => simp [contribution, hpol]

/-! ## Simulator: visit tracking and scoring -/

/-- C1: from the fresh Ready state, for every sequence of selections of ids of
the fetched set, no selection throws and the length of `visitedLocations` after
the sequence is the number of distinct ids in the sequence. -/
theorem visited_length_eq_distinct (p : Project) (ls : List Location) (ids : List JsId)
    (hknown : ∀ id ∈ ids, ∃ l ∈ ls, l.id = id) :
    (∀ id ∈ ids, ∀ s, (handleLocationChange p ls id s).threw = false) ∧
    (simulate p ls ids (ready ls)).visitedLocations.length = ids.dedup.length :=
  ⟨fun id hid s => select_known_no_throw p ls id s (hknown id hid),
    (simulate_ready_perm p ls ids hknown).length_eq⟩

theorem visited_length_eq_distinct_witness :
    (∀ id ∈ [JsId.str "A", .str "B", .str "A", .str "A"], ∃ l ∈ sampleAB, l.id = id) ∧
    (simulate (sampleProject "Not Scored") sampleAB
      [.str "A", .str "B", .str "A", .str "A"] (ready sampleAB)).visitedLocations.length = 2 :=
  ⟨by decide,
    (visited_length_eq_distinct (sampleProject "Not Scored") sampleAB
      [.str "A", .str "B", .str "A", .str "A"] (by decide)).2.trans (by decide)⟩

/-- C2: under 'Number of Scanned QR Codes', for every sequence of selections
of known ids from the fresh Ready state, the score is the number of distinct ids
selected, whatever the locations' points. -/
theorem score_qr_eq_distinct (p : Project) (ls : List Location) (ids : List JsId)
    (hpol : p.participant_scoring = "Number of Scanned QR Codes")
    (hknown : ∀ id ∈ ids, ∃ l ∈ ls, l.id = id) :
    (simulate p ls ids (ready ls)).score = (ids.dedup.length : Int) := by
  obtain ⟨-, hmem⟩ := simulate_ready_inv p ls ids
  have hsc := simulate_score_inv_ready p ls ids
    (fun h => absurd (hpol.symm.trans h) (by decide))
  have hone : ∀ i ∈ (simulate p ls ids (ready ls)).visitedLocations,
      contributionOf p ls i = 1 := by
    intro i hi
    obtain ⟨l, hl⟩ := find_id_of_known ((hmem i).mp hi).2
    simp [contributionOf, hl, contribution, hpol]
  rw [hsc, sum_map_of_const _ 1 _ hone, (simulate_ready_perm p ls ids hknown).length_eq]
  simp

theorem score_qr_eq_distinct_witness :
    (sampleProject "Number of Scanned QR Codes").participant_scoring =
      "Number of Scanned QR Codes" ∧
    (∀ id ∈ [JsId.str "A", .str "B", .str "A"], ∃ l ∈ sampleAB, l.id = id) ∧
    (simulate (sampleProject "Number of Scanned QR Codes") sampleAB
      [.str "A", .str "B", .str "A"] (ready sampleAB)).score = 2 :=
  ⟨rfl, by decide,
    (score_qr_eq_distinct (sampleProject "Number of Scanned QR Codes") sampleAB
      [.str "A", .str "B", .str "A"] rfl (by decide)).trans (by decide)⟩

/-- C3 as stated fails: with points A = 2^53 and B = 1 under 'Number of
Locations Entered', visiting A then B leaves the score at 9007199254740992, the
binary64 result of 2^53 + 1, while the sum of the points is 9007199254740993. -/
theorem score_points_rounding_counterexample :
    (∀ id ∈ [JsId.str "A", .str "B"], ∃ l ∈ sampleBig, l.id = id) ∧
    (simulate (sampleProject "Number of Locations Entered") sampleBig
      [.str "A", .str "B"] (ready sampleBig)).score = 9007199254740992 ∧
    ([JsId.str "A", .str "B"].dedup.map (pointsOf sampleBig)).sum = 9007199254740993 ∧
    (simulate (sampleProject "Number of Locations Entered") sampleBig
      [.str "A", .str "B"] (ready sampleBig)).score ≠
      ([JsId.str "A", .str "B"].dedup.map (pointsOf sampleBig)).sum := by
  decide

/-- C3 (amended): under 'Number of Locations Entered', for every sequence of
selections of known ids from the fresh Ready state in which the absolute values
of the `score_points` of the distinct locations selected add up to at most
2^53, the score is the sum of `score_points` over the distinct ids selected,
each counted once. -/
theorem score_points_eq_sum_distinct (p : Project) (ls : List Location) (ids : List JsId)
    (hpol : p.participant_scoring = "Number of Locations Entered")
    (hknown : ∀ id ∈ ids, ∃ l ∈ ls, l.id = id)
    (hexact : (ids.dedup.map (fun i => (pointsOf ls i).natAbs)).sum ≤ maxExact) :
    (simulate p ls ids (ready ls)).score = (ids.dedup.map (pointsOf ls)).sum := by
  have hperm := simulate_ready_perm p ls ids hknown
  have hfun := contributionOf_eq_pointsOf p ls hpol
  have hsc := simulate_score_inv_ready p ls ids (fun _ => by
    rw [hfun, (hperm.map (fun i => (pointsOf ls i).natAbs)).sum_eq]
    exact hexact)
  rw [hsc, hfun]
  exact (hperm.map _).sum_eq

theorem score_points_eq_sum_distinct_witness :
    (sampleProject "Number of Locations Entered").participant_scoring =
      "Number of Locations Entered" ∧
    (∀ id ∈ [JsId.str "A", .str "B", .str "A"], ∃ l ∈ sampleAB, l.id = id) ∧
    ([JsId.str "A", .str "B", .str "A"].dedup.map
      (fun i => (pointsOf sampleAB i).natAbs)).sum ≤ maxExact ∧
    (simulate (sampleProject "Number of Locations Entered") sampleAB
      [.str "A", .str "B"] (ready sampleAB)).score = 15 ∧
    (simulate (sampleProject "Number of Locations Entered") sampleAB
      [.str "A", .str "B", .str "A"] (ready sampleAB)).score = 15 :=
  ⟨rfl, by decide, by decide, by decide,
    (score_points_eq_sum_distinct (sampleProject "Number of Locations Entered") sampleAB
      [.str "A", .str "B", .str "A"] rfl (by decide) (by decide)).trans (by decide)⟩

/-- C4: under 'Not Scored', or any value other than the two scoring policies,
for every sequence of selections of known ids from the fresh Ready state the
score stays 0 and the length of `visitedLocations` is the number of distinct ids
selected. -/
theorem not_scored_score_zero (p : Project) (ls : List Location) (ids : List JsId)
    (hqr : p.participant_scoring ≠ "Number of Scanned QR Codes")
    (hpts : p.participant_scoring ≠ "Number of Locations Entered")
    (hknown : ∀ id ∈ ids, ∃ l ∈ ls, l.id = id) :
    (simulate p ls ids (ready ls)).score = 0 ∧
    (simulate p ls ids (ready ls)).visitedLocations.length = ids.dedup.length := by
  have hsc := simulate_score_inv_ready p ls ids (fun h => absurd h hpts)
  have hzero : ∀ i ∈ (simulate p ls ids (ready ls)).visitedLocations,
      contributionOf p ls i = 0 := by
    intro i _
    unfold contributionOf
    cases ls.find? (fun location => decide (location.id = i)) with
    | none => rfl
    | some l => simp [contribution, hqr, hpts]
  refine ⟨?_, (simulate_ready_perm p ls ids hknown).length_eq⟩
  rw [hsc, sum_map_of_const _ 0 _ hzero]
  simp

theorem not_scored_score_zero_witness :
    (sampleProject "Not Scored").participant_scoring ≠ "Number of Scanned QR Codes" ∧
    (sampleProject "Not Scored").participant_scoring ≠ "Number of Locations Entered" ∧
    (∀ id ∈ [JsId.str "B", .str "A", .str "B"], ∃ l ∈ sampleAB, l.id = id) ∧
    (simulate (sampleProject "Not Scored") sampleAB
      [.str "B", .str "A", .str "B"] (ready sampleAB)).score = 0 ∧
    (simulate (sampleProject "Not Scored") sampleAB
      [.str "B", .str "A", .str "B"] (ready sampleAB)).visitedLocations.length =
      [JsId.str "B", .str "A", .str "B"].dedup.length :=
  ⟨by decide, by decide, by decide,
    not_scored_score_zero (sampleProject "Not Scored") sampleAB
      [.str "B", .str "A", .str "B"] (by decide) (by decide) (by decide)⟩

/-- C5: selecting an id that matches no fetched location is not a no-op in the
code.  With the single fetched location of numeric id `1`, the `<select>` hands
the handler the string `"1"`; `find` returns `undefined`, `currentLocation`
goes from location A to `undefined`, and `trackVisit` throws. -/
theorem select_absent_id_clears_current_and_throws :
    (ready [sampleLocation (.num 1) "A" 10]).currentLocation =
      some (sampleLocation (.num 1) "A" 10) ∧
    (¬ ∃ l ∈ [sampleLocation (.num 1) "A" 10], l.id = JsId.str "1") ∧
    handleLocationChange (sampleProject "Not Scored") [sampleLocation (.num 1) "A" 10]
      (.str "1") (ready [sampleLocation (.num 1) "A" 10]) =
      { state := { currentLocation := none, visitedLocations := [], score := 0 },
        threw := true } := by
  decide

/-- C6: `trackVisit` on a location whose id is already in `visitedLocations`
changes nothing, for every project and state; and applying `trackVisit` to the
same location twice in succession gives the same state as applying it once. -/
theorem trackVisit_idempotent (p : Project) (l : Location) (s : SimState) :
    (l.id ∈ s.visitedLocations → trackVisit p l s = s) ∧
    trackVisit p l (trackVisit p l s) = trackVisit p l s := by
  refine ⟨trackVisit_of_mem p l s, ?_⟩
  by_cases h : l.id ∈ s.visitedLocations
  · rw [trackVisit_of_mem p l s h, trackVisit_of_mem p l s h]
  · apply trackVisit_of_mem
    rw [(trackVisit_of_not_mem p l s h).1]
    simp

theorem trackVisit_idempotent_witness :
    (sampleLocation (.str "A") "A" 10).id ∈
      ({ currentLocation := none, visitedLocations := [.str "B", .str "A"], score := 15 } :
        SimState).visitedLocations ∧
    trackVisit (sampleProject "Number of Locations Entered") (sampleLocation (.str "A") "A" 10)
      { currentLocation := none, visitedLocations := [.str "B", .str "A"], score := 15 } =
      { currentLocation := none, visitedLocations := [.str "B", .str "A"], score := 15 } :=
  ⟨by decide,
    (trackVisit_idempotent (sampleProject "Number of Locations Entered")
      (sampleLocation (.str "A") "A" 10)
      { currentLocation := none, visitedLocations := [.str "B", .str "A"], score := 15 }).1
      (by decide)⟩

/-- C7 as stated fails: under 'Number of Locations Entered' with points
A = 2^53 and B = 1, after visiting A the score is 2^53; the first visit of B
adds its id to `visitedLocations` but leaves the score at 2^53, although the
contribution of B is 1: the visited list changed and the score did not change
by the contribution. -/
theorem score_step_rounding_counterexample :
    (simulate (sampleProject "Number of Locations Entered") sampleBig [.str "A"]
      (ready sampleBig)).score = 9007199254740992 ∧
    contribution (sampleProject "Number of Locations Entered")
      (sampleLocation (.str "B") "B" 1) = 1 ∧
    ¬ (((handleLocationChange (sampleProject "Number of Locations Entered") sampleBig
          (.str "B")
          (simulate (sampleProject "Number of Locations Entered") sampleBig [.str "A"]
            (ready sampleBig))).state.visitedLocations =
          (simulate (sampleProject "Number of Locations Entered") sampleBig [.str "A"]
            (ready sampleBig)).visitedLocations ∧
        (handleLocationChange (sampleProject "Number of Locations Entered") sampleBig
          (.str "B")
          (simulate (sampleProject "Number of Locations Entered") sampleBig [.str "A"]
            (ready sampleBig))).state.score =
          (simulate (sampleProject "Number of Locations Entered") sampleBig [.str "A"]
            (ready sampleBig)).score) ∨
      ((handleLocationChange (sampleProject "Number of Locations Entered") sampleBig
          (.str "B")
          (simulate (sampleProject "Number of Locations Entered") sampleBig [.str "A"]
            (ready sampleBig))).state.visitedLocations =
          (simulate (sampleProject "Number of Locations Entered") sampleBig [.str "A"]
            (ready sampleBig)).visitedLocations ++ [.str "B"] ∧
        (handleLocationChange (sampleProject "Number of Locations Entered") sampleBig
          (.str "B")
          (simulate (sampleProject "Number of Locations Entered") sampleBig [.str "A"]
            (ready sampleBig))).state.score =
          (simulate (sampleProject "Number of Locations Entered") sampleBig [.str "A"]
            (ready sampleBig)).score +
            contribution (sampleProject "Number of Locations Entered")
              (sampleLocation (.str "B") "B" 1))) := by
  decide

/-- C7 (amended): score and visited list change together.  Every `trackVisit`
and every selection either leaves both `visitedLocations` and `score` unchanged,
or appends exactly one id that was not yet visited and, when the absolute values
of the current score and of the contribution add up to at most 2^53, adds to the
score exactly the contribution of that location under the project's policy; the
score does not change in a selection that adds no id; and in every state reached
from the fresh Ready state the visited list has no repeats and the score is the
sum of the contributions of the visited ids, each taken once, when the absolute
values of those contributions add up to at most 2^53. -/
theorem score_and_visited_change_together (p : Project) (ls : List Location) :
    (∀ (l : Location) (s : SimState),
      ((trackVisit p l s).visitedLocations = s.visitedLocations ∧
        (trackVisit p l s).score = s.score) ∨
      (l.id ∉ s.visitedLocations ∧
        (trackVisit p l s).visitedLocations = s.visitedLocations ++ [l.id] ∧
        (s.score.natAbs + (contribution p l).natAbs ≤ maxExact →
          (trackVisit p l s).score = s.score + contribution p l))) ∧
    (∀ (id : JsId) (s : SimState),
      ((handleLocationChange p ls id s).state.visitedLocations = s.visitedLocations ∧
        (handleLocationChange p ls id s).state.score = s.score) ∨
      (∃ l, ls.find? (fun location => decide (location.id = id)) = some l ∧
        l.id = id ∧ id ∉ s.visitedLocations ∧
        (handleLocationChange p ls id s).state.visitedLocations = s.visitedLocations ++ [id] ∧
        (s.score.natAbs + (contribution p l).natAbs ≤ maxExact →
          (handleLocationChange p ls id s).state.score = s.score + contribution p l))) ∧
    (∀ (id : JsId) (s : SimState),
      (handleLocationChange p ls id s).state.visitedLocations = s.visitedLocations →
      (handleLocationChange p ls id s).state.score = s.score) ∧
    (∀ ids : List JsId,
      (simulate p ls ids (ready ls)).visitedLocations.Nodup ∧
      (((simulate p ls ids (ready ls)).visitedLocations.map
          (fun i => (contributionOf p ls i).natAbs)).sum ≤ maxExact →
        (simulate p ls ids (ready ls)).score =
          ((simulate p ls ids (ready ls)).visitedLocations.map (contributionOf p ls)).sum)) := by
  have hstep : ∀ (l : Location) (s : SimState), l.id ∉ s.visitedLocations →
      s.score.natAbs + (contribution p l).natAbs ≤ maxExact →
      (trackVisit p l s).score = s.score + contribution p l := by
    intro l s h hb
    apply trackVisit_score_exact p l s h
    intro hpts
    have hpt : contribution p l = l.score_points := by
      unfold contribution
      rw [hpts]
      simp
    rw [hpt] at hb
    have := Int.natAbs_add_le s.score l.score_points
    omega
  refine ⟨?_, ?_, ?_, ?_⟩
  · intro l s
    by_cases h : l.id ∈ s.visitedLocations
    · left
      rw [trackVisit_of_mem p l s h]
      exact ⟨rfl, rfl⟩
    · right
      exact ⟨h, (trackVisit_of_not_mem p l s h).1, hstep l s h⟩
  · intro id s
    rcases select_step p ls id s with ⟨hv, hs, -⟩ | ⟨hnm, l, hl, hv, hs, hm1⟩
    · exact Or.inl ⟨hv, hs⟩
    · right
      refine ⟨l, hl, (find_id_some hl).2, hnm, hv, ?_⟩
      intro hb
      rw [hs]
      exact hstep l s hm1 hb
  · intro id s hsame
    rcases select_step p ls id s with ⟨-, hs, -⟩ | ⟨-, l, -, hv, -, -⟩
    · exact hs
    · rw [hv] at hsame
      have := congrArg List.length hsame
      simp at this
  · intro ids
    exact ⟨(simulate_ready_inv p ls ids).1,
      fun hb => simulate_score_inv_ready p ls ids (fun _ => hb)⟩

theorem score_and_visited_change_together_witness :
    ((10 : Int).natAbs + (contribution (sampleProject "Number of Locations Entered")
      (sampleLocation (.str "B") "B" 5)).natAbs ≤ maxExact) ∧
    (trackVisit (sampleProject "Number of Locations Entered")
      (sampleLocation (.str "B") "B" 5)
      { currentLocation := none, visitedLocations := [.str "A"], score := 10 }).score =
      10 + contribution (sampleProject "Number of Locations Entered")
        (sampleLocation (.str "B") "B" 5) ∧
    (handleLocationChange (sampleProject "Number of Locations Entered") sampleAB (.str "A")
      { currentLocation := none, visitedLocations := [.str "A"], score := 10 }
      ).state.score = 10 :=
  ⟨by decide,
    ((score_and_visited_change_together (sampleProject "Number of Locations Entered")
      sampleAB).1 (sampleLocation (.str "B") "B" 5)
      { currentLocation := none, visitedLocations := [.str "A"], score := 10 }).elim
      (fun h => absurd h.1 (by decide)) (fun h => h.2.2 (by decide)),
    (score_and_visited_change_together (sampleProject "Number of Locations Entered")
      sampleAB).2.2.1 (.str "A")
      { currentLocation := none, visitedLocations := [.str "A"], score := 10 } (by decide)⟩

/-- C8 as stated fails: under 'Number of Locations Entered' a fetched location
with `score_points = -5` takes the score from 0 to -5. -/
theorem score_negative_counterexample :
    ¬ (0 ≤ (simulate (sampleProject "Number of Locations Entered")
      [sampleLocation (.str "A") "A" (-5)] [.str "A"]
      (ready [sampleLocation (.str "A") "A" (-5)])).score) := by
  decide

/-- C8 (amended): in every state reached from the fresh Ready state by any
sequence of selections the score is non-negative, for every scoring policy,
provided that under 'Number of Locations Entered' every fetched location has
non-negative `score_points`. -/
theorem score_nonneg (p : Project) (ls : List Location) (ids : List JsId)
    (hpts : p.participant_scoring = "Number of Locations Entered" →
      ∀ l ∈ ls, 0 ≤ l.score_points) :
    0 ≤ (simulate p ls ids (ready ls)).score := by
  exact simulate_score_nonneg p ls hpts ids (ready ls) (le_refl 0)

theorem score_nonneg_witness :
    ((sampleProject "Number of Locations Entered").participant_scoring =
        "Number of Locations Entered" → ∀ l ∈ sampleAB, 0 ≤ l.score_points) ∧
    0 ≤ (simulate (sampleProject "Number of Locations Entered") sampleAB
      [.str "B", .str "zzz", .str "A", .str "B"] (ready sampleAB)).score :=
  ⟨fun _ => by decide,
    score_nonneg (sampleProject "Number of Locations Entered") sampleAB
      [.str "B", .str "zzz", .str "A", .str "B"] (fun _ => by decide)⟩

/-- C9: `visitedLocations` only grows.  In every state reached from the fresh
Ready state it holds no id twice; every selection and every `trackVisit` keeps
the old list as a prefix of the new one, so its length never decreases. -/
theorem visited_grows_without_repeats (p : Project) (ls : List Location) :
    (∀ ids : List JsId, (simulate p ls ids (ready ls)).visitedLocations.Nodup) ∧
    (∀ (id : JsId) (s : SimState),
      s.visitedLocations <+: (handleLocationChange p ls id s).state.visitedLocations ∧
      s.visitedLocations.length ≤
        (handleLocationChange p ls id s).state.visitedLocations.length) ∧
    (∀ (l : Location) (s : SimState),
      s.visitedLocations <+: (trackVisit p l s).visitedLocations ∧
      s.visitedLocations.length ≤ (trackVisit p l s).visitedLocations.length) := by
  refine ⟨fun ids => (simulate_ready_inv p ls ids).1, ?_, ?_⟩
  · intro id s
    have hp : s.visitedLocations <+:
        (handleLocationChange p ls id s).state.visitedLocations := by
      rcases select_step p ls id s with ⟨hv, -, -⟩ | ⟨-, l, -, hv, -, -⟩
      · rw [hv]
      · rw [hv]
        exact List.prefix_append _ _
    exact ⟨hp, hp.length_le⟩
  · intro l s
    have hp : s.visitedLocations <+: (trackVisit p l s).visitedLocations := by
      by_cases h : l.id ∈ s.visitedLocations
      · rw [trackVisit_of_mem p l s h]
      · rw [(trackVisit_of_not_mem p l s h).1]
        exact List.prefix_append _ _
    exact ⟨hp, hp.length_le⟩

/-! ## Location List -/

/-- C10: after a successful `handleDelete(id)` the local list is the previous
list without the rows whose id is the deleted id: it is a sublist of the old list
(relative order kept), holds no row with that id, and holds every other row as
often as before; when exactly one row has the id, the result is the old list
with that row taken out.  The other state cells are untouched. -/
theorem handleDelete_removes_only_id (id : JsId) (s : LocationListState) :
    (handleDelete true id s).locations.Sublist s.locations ∧
    (∀ l ∈ (handleDelete true id s).locations, l.id ≠ id) ∧
    (∀ l : Location, l.id ≠ id →
      (handleDelete true id s).locations.count l = s.locations.count l) ∧
    (∀ (before after : List Location) (row : Location),
      s.locations = before ++ row :: after → row.id = id →
      (∀ l ∈ before ++ after, l.id ≠ id) →
      (handleDelete true id s).locations = before ++ after) ∧
    (handleDelete true id s).error = s.error ∧
    (handleDelete true id s).qrCodeLocation = s.qrCodeLocation := by
  refine ⟨?_, ?_, ?_, ?_, rfl, rfl⟩
  · exact List.filter_sublist _
  · intro l hl
    have := (List.mem_filter.mp hl).2
    simpa using this
  · intro l hl
    simp only [handleDelete, if_true]
    rw [List.count_filter]
    simpa using hl
  · intro before after row hs hrow hothers
    simp only [handleDelete, if_true, hs, List.filter_append, List.filter_cons]
    have hb : before.filter (fun location => decide (location.id ≠ id)) = before :=
      List.filter_eq_self.mpr (fun l hl => by
        simpa using hothers l (List.mem_append_left _ hl))
    have ha : after.filter (fun location => decide (location.id ≠ id)) = after :=
      List.filter_eq_self.mpr (fun l hl => by
        simpa using hothers l (List.mem_append_right _ hl))
    rw [hb, ha]
    simp [hrow]

theorem handleDelete_removes_only_id_witness :
    (handleDelete true (.num 7)
      { locations := [sampleLocation (.num 9) "C" 1, sampleLocation (.num 7) "A" 10,
          sampleLocation (.num 8) "B" 5],
        error := none, qrCodeLocation := none }).locations =
      [sampleLocation (.num 9) "C" 1] ++ [sampleLocation (.num 8) "B" 5] :=
  (handleDelete_removes_only_id (.num 7)
    { locations := [sampleLocation (.num 9) "C" 1, sampleLocation (.num 7) "A" 10,
        sampleLocation (.num 8) "B" 5],
      error := none, qrCodeLocation := none }).2.2.2.1
    [sampleLocation (.num 9) "C" 1] [sampleLocation (.num 8) "B" 5]
    (sampleLocation (.num 7) "A" 10) rfl rfl (by decide)

/-! ## Project List -/

/-- On a list whose keys are pairwise distinct, taking out the element at an
in-bounds position is the same as filtering out the elements with its key. -/
theorem eraseIdx_eq_filter_of_nodup {α : Type} (key : α → JsId) (xs : List α) :
    ∀ (i : Nat) (hi : i < xs.length), (xs.map key).Nodup →
      xs.eraseIdx i = xs.filter (fun x => decide (key x ≠ key xs[i])) := by
  induction xs with
  | nil => intro i hi; simp at hi
  | cons x xs ih =>
    intro i hi hnd
    rw [List.map_cons, List.nodup_cons] at hnd
    obtain ⟨hx, hxs⟩ := hnd
    cases i with
    | zero =>
      have hall : xs.filter (fun y => decide (key y ≠ key x)) = xs := by
        apply List.filter_eq_self.mpr
        intro y hy
        have : key y ≠ key x := fun h => hx (h ▸ List.mem_map_of_mem key hy)
        simpa using this
      show xs = _
      rw [List.filter_cons, if_neg (by simp)]
      exact hall.symm
    | succ i =>
      have hi2 : i < xs.length := by simpa using hi
      have hne : key x ≠ key xs[i] :=
        fun h => hx (h ▸ List.mem_map_of_mem key (List.getElem_mem hi2))
      simp only [List.eraseIdx_cons_succ, List.getElem_cons_succ, List.filter_cons]
      rw [← ih i hi2 hxs]
      simp [hne]

/-- The Delete button of a rendered row passes the id of the entry at the
position it passes. -/
theorem deleteButtons_spec (s : ProjectListState) (id : JsId) (index : Nat) :
    (id, index) ∈ deleteButtons s ↔ ∃ p, s.projectList[index]? = some p ∧ p.id = id := by
  unfold deleteButtons
  constructor
  · intro h
    obtain ⟨⟨j, q⟩, hmem, heq⟩ := List.mem_map.mp h
    simp only [Prod.mk.injEq] at heq
    obtain ⟨h1, h2⟩ := heq
    subst h2
    exact ⟨q, List.mk_mem_enum_iff_getElem?.mp hmem, h1⟩
  · rintro ⟨p, hp, hid⟩
    exact List.mem_map.mpr ⟨(index, p), List.mk_mem_enum_iff_getElem?.mpr hp, by simp [hid]⟩

/-- C11: for a call `handleRemove(id, index)` made by a row's Delete button,
where `index` is the one position holding a project with that id, a successful
delete leaves the old list without the entry at `index`: one entry shorter,
the entries before `index` in place, the entries after it moved up by one, and
no entry with the given id left. -/
theorem handleRemove_removes_project (deleteProject : JsId → Bool) (id : JsId) (index : Nat)
    (s : ProjectListState)
    (hok : deleteProject id = true)
    (hrow : (id, index) ∈ deleteButtons s)
    (honly : ∀ (j : Nat) (q : Project), s.projectList[j]? = some q → q.id = id → j = index) :
    (handleRemove deleteProject id index s).projectList.length + 1 = s.projectList.length ∧
    (∀ j, j < index →
      (handleRemove deleteProject id index s).projectList[j]? = s.projectList[j]?) ∧
    (∀ j, index ≤ j →
      (handleRemove deleteProject id index s).projectList[j]? = s.projectList[j + 1]?) ∧
    (∀ q ∈ (handleRemove deleteProject id index s).projectList, q.id ≠ id) := by
  obtain ⟨p, hp, -⟩ := (deleteButtons_spec s id index).mp hrow
  obtain ⟨hlt, -⟩ := List.getElem?_eq_some.mp hp
  have hnew : (handleRemove deleteProject id index s).projectList =
      s.projectList.eraseIdx index := by
    simp [handleRemove, spliceOne, hok]
  rw [hnew]
  refine ⟨?_, ?_, ?_, ?_⟩
  · rw [List.length_eraseIdx_of_lt hlt]
    omega
  · intro j hj
    exact List.getElem?_eraseIdx_of_lt _ _ _ hj
  · intro j hj
    exact List.getElem?_eraseIdx_of_ge _ _ _ hj
  · intro q hq hqid
    obtain ⟨j, hj, hjq⟩ := List.mem_eraseIdx_iff_getElem?.mp hq
    exact hj (honly j q hjq hqid)

theorem handleRemove_removes_project_witness :
    (JsId.num 7, 1) ∈ deleteButtons
      { projectList := [{ sampleProject "Not Scored" with id := .num 9 },
          { sampleProject "Not Scored" with id := .num 7 },
          { sampleProject "Not Scored" with id := .num 8 }] } ∧
    (∀ q ∈ (handleRemove (fun _ => true) (.num 7) 1
      { projectList := [{ sampleProject "Not Scored" with id := .num 9 },
          { sampleProject "Not Scored" with id := .num 7 },
          { sampleProject "Not Scored" with id := .num 8 }] }).projectList, q.id ≠ .num 7) :=
  ⟨by decide,
    (handleRemove_removes_project (fun _ => true) (.num 7) 1
      { projectList := [{ sampleProject "Not Scored" with id := .num 9 },
          { sampleProject "Not Scored" with id := .num 7 },
          { sampleProject "Not Scored" with id := .num 8 }] }
      rfl (by decide)
      (by
        intro j q hj hq
        match j with
        | 0 => simp at hj; subst hj; simp [sampleProject] at hq
        | 1 => rfl
        | 2 => simp at hj; subst hj; simp [sampleProject] at hq
        | (k + 3) => simp at hj)).2.2.2⟩

/-! ## Location Editor -/

/-- C12 as stated fails: with `projectId` set to the number `0` the guard
`!projectId` holds, and `handleSubmit` logs "Project ID is missing!" without
issuing a request. -/
theorem submit_with_zero_project_id_counterexample :
    ({ locationName := "A", locationTrigger := "Location Entry", locationPosition := "0, 0",
       scorePoints := 10, clue := "", locationContent := "",
       projectId := some (.num 0) } : EditLocation.Form).projectId ≠ none ∧
    (EditLocation.handleSubmit none true
      { locationName := "A", locationTrigger := "Location Entry", locationPosition := "0, 0",
        scorePoints := 10, clue := "", locationContent := "",
        projectId := some (.num 0) }).effects = [.logError "Project ID is missing!"] := by
  decide

/-- C12 (amended): `handleSubmit` never changes the form state.  When
`projectId` is falsy (`null`, `0` or the empty string) it issues no request and
no navigation, only the logged error.  When `projectId` is truthy it issues
exactly one request: `updateLocation` when the route carries a non-empty
location id, `createLocation` otherwise. -/
theorem submit_requires_project_id (id : Option String) (remoteOk : Bool)
    (f : EditLocation.Form) :
    (EditLocation.handleSubmit id remoteOk f).form = f ∧
    (truthyId f.projectId = false →
      (EditLocation.handleSubmit id remoteOk f).effects =
        [.logError "Project ID is missing!"] ∧
      (EditLocation.handleSubmit id remoteOk f).effects.filter
        EditLocation.Effect.isRequest = [] ∧
      (EditLocation.handleSubmit id remoteOk f).effects.filter
        EditLocation.Effect.isNavigate = []) ∧
    (truthyId f.projectId = true →
      ((EditLocation.handleSubmit id remoteOk f).effects.filter
        EditLocation.Effect.isRequest).length = 1 ∧
      (∀ i, id = some i → i ≠ "" →
        ∃ d, (EditLocation.handleSubmit id remoteOk f).effects.filter
          EditLocation.Effect.isRequest = [.updateLocation i d]) ∧
      (truthyParam id = false →
        ∃ d, (EditLocation.handleSubmit id remoteOk f).effects.filter
          EditLocation.Effect.isRequest = [.createLocation d])) := by
  refine ⟨?_, ?_, ?_⟩
  · unfold EditLocation.handleSubmit
    cases f.projectId with
    | none => rfl
    | some pid => dsimp only; split_ifs <;> rfl
  · intro hf
    unfold EditLocation.handleSubmit
    cases hp : f.projectId with
    | none => simp [EditLocation.Effect.isRequest, EditLocation.Effect.isNavigate]
    | some pid =>
      rw [hp] at hf
      simp [hf, EditLocation.Effect.isRequest, EditLocation.Effect.isNavigate]
  · intro ht
    unfold EditLocation.handleSubmit
    cases hp : f.projectId with
    | none => rw [hp] at ht; simp [truthyId] at ht
    | some pid =>
      rw [hp] at ht
      refine ⟨?_, ?_, ?_⟩
      · cases id with
        | none => cases remoteOk <;>
            simp [ht, List.filter_cons, EditLocation.Effect.isRequest]
        | some i =>
          by_cases hi : truthyParam (some i) = true <;> cases remoteOk <;>
            simp [ht, hi, List.filter_cons, EditLocation.Effect.isRequest]
      · intro i hid hne
        subst hid
        have hi : truthyParam (some i) = true := by simp [truthyParam, hne]
        cases remoteOk <;>
          simp [ht, hi, List.filter_cons, EditLocation.Effect.isRequest]
      · intro hfalse
        cases id with
        | none => cases remoteOk <;>
            simp [ht, List.filter_cons, EditLocation.Effect.isRequest]
        | some i =>
          cases remoteOk <;>
            simp [ht, hfalse, List.filter_cons, EditLocation.Effect.isRequest]

theorem submit_requires_project_id_witness :
    truthyId (some (.num 3)) = true ∧
    (∃ d, (EditLocation.handleSubmit (some "12") true
      { locationName := "A", locationTrigger := "Location Entry", locationPosition := "0, 0",
        scorePoints := 10, clue := "", locationContent := "",
        projectId := some (.num 3) }).effects.filter
        EditLocation.Effect.isRequest = [.updateLocation "12" d]) :=
  ⟨by decide,
    ((submit_requires_project_id (some "12") true
      { locationName := "A", locationTrigger := "Location Entry", locationPosition := "0, 0",
        scorePoints := 10, clue := "", locationContent := "",
        projectId := some (.num 3) }).2.2 (by decide)).2.1 "12" rfl (by decide)⟩

/-! ## Project Editor -/

/-- C13: for every form state and every store whose next identifier is not in
use, submitting the form without a route id issues `createProject` with the
seven form values; fetching the created project by its returned id yields the
one-element collection holding it; it carries the seven authored fields of the
form; and loading that collection into the editor restores the same form. -/
theorem project_round_trip (st : Store) (f : ProjectEdit.Form) (hfresh : st.Fresh) :
    ProjectEdit.handleSubmit none true f =
      [.createProject (ProjectEdit.payload f), .navigate "/project"] ∧
    (st.createProject (ProjectEdit.payload f)).1.getProject
        (st.createProject (ProjectEdit.payload f)).2.id =
      [(st.createProject (ProjectEdit.payload f)).2] ∧
    ((st.createProject (ProjectEdit.payload f)).2.title = f.title ∧
      (st.createProject (ProjectEdit.payload f)).2.description = f.description ∧
      (st.createProject (ProjectEdit.payload f)).2.instructions = f.instructions ∧
      (st.createProject (ProjectEdit.payload f)).2.initial_clue = f.initClue ∧
      (st.createProject (ProjectEdit.payload f)).2.homescreen_display = f.homeDisplay ∧
      (st.createProject (ProjectEdit.payload f)).2.participant_scoring =
        f.participantScoring ∧
      (st.createProject (ProjectEdit.payload f)).2.is_published = f.published) ∧
    ProjectEdit.fetchProject
        ((st.createProject (ProjectEdit.payload f)).1.getProject
          (st.createProject (ProjectEdit.payload f)).2.id) = some f := by
  have hget : (st.createProject (ProjectEdit.payload f)).1.getProject
      (st.createProject (ProjectEdit.payload f)).2.id =
      [(st.createProject (ProjectEdit.payload f)).2] := by
    simp only [Store.createProject, Store.getProject, List.filter_append]
    have hold : st.projects.filter (fun p => decide (p.id = JsId.num (st.nextId : Int))) = [] := by
      apply List.filter_eq_nil_iff.mpr
      intro p hp
      simpa using hfresh p hp
    rw [hold]
    simp
  refine ⟨rfl, hget, ⟨rfl, rfl, rfl, rfl, rfl, rfl, rfl⟩, ?_⟩
  rw [hget]
  rfl

theorem project_round_trip_witness :
    Store.Fresh { nextId := 2, projects := [sampleProject "Not Scored"] } ∧
    ProjectEdit.fetchProject
        ((Store.createProject { nextId := 2, projects := [sampleProject "Not Scored"] }
          (ProjectEdit.payload
            { title := "Hunt", description := "d", instructions := "i", initClue := "c",
              homeDisplay := "Display all locations",
              participantScoring := "Number of Scanned QR Codes", published := true })).1.getProject
          (.num 2)) =
      some { title := "Hunt", description := "d", instructions := "i", initClue := "c",
             homeDisplay := "Display all locations",
             participantScoring := "Number of Scanned QR Codes", published := true } :=
  ⟨by intro p hp; simp [sampleProject] at hp; subst hp; decide,
    (project_round_trip { nextId := 2, projects := [sampleProject "Not Scored"] }
      { title := "Hunt", description := "d", instructions := "i", initClue := "c",
        homeDisplay := "Display all locations",
        participantScoring := "Number of Scanned QR Codes", published := true }
      (by intro p hp; simp [sampleProject] at hp; subst hp; decide)).2.2.2⟩

/-! ## Location List: QR slot -/

/-- C14: the QR slot holds at most one location.  After "Print QR Code" on a
location the slot holds exactly that location, whatever it held before, and the
encoded value is `Location ID: ` followed by the location's id; after the close
action the slot is empty and no code is rendered.  Neither action touches the
list or the error cell. -/
theorem qr_slot_holds_one_location (location : Location) (s : LocationListState) :
    (handlePrintQRCode location s).qrCodeLocation = some location ∧
    qrCodeValue (handlePrintQRCode location s) =
      some ("Location ID: " ++ location.id.toText) ∧
    (closeQRCode (handlePrintQRCode location s)).qrCodeLocation = none ∧
    qrCodeValue (closeQRCode (handlePrintQRCode location s)) = none ∧
    (handlePrintQRCode location s).locations = s.locations ∧
    (handlePrintQRCode location s).error = s.error ∧
    (closeQRCode s).qrCodeLocation = none ∧
    qrCodeValue (closeQRCode s) = none ∧
    (closeQRCode s).locations = s.locations ∧
    (closeQRCode s).error = s.error ∧
    qrCodeValue (handlePrintQRCode (sampleLocation (.num 42) "A" 10) s) =
      some "Location ID: 42" ∧
    qrCodeValue (handlePrintQRCode (sampleLocation (.str "x7") "B" 5)
      (handlePrintQRCode (sampleLocation (.num 42) "A" 10) s)) = some "Location ID: x7" :=
  have h42 : "Location ID: " ++ (JsId.num 42).toText = "Location ID: 42" := by decide
  have hx7 : "Location ID: " ++ (JsId.str "x7").toText = "Location ID: x7" := by decide
  ⟨rfl, rfl, rfl, rfl, rfl, rfl, rfl, rfl, rfl, rfl, congrArg some h42, congrArg some hx7⟩

/-! ## Simulator: home screen -/

/-- `renderHomescreen` itself shows the title, the instructions and then the
initial clue exactly under 'Display initial clue', and otherwise the names of
all fetched locations in list order. -/
theorem renderHomescreen_spec (p : Project) (ls : List Location) :
    (p.homescreen_display = "Display initial clue" →
      renderHomescreen p ls =
        [.title p.title, .instructions p.instructions, .initialClue p.initial_clue]) ∧
    (p.homescreen_display ≠ "Display initial clue" →
      renderHomescreen p ls =
        [.title p.title, .instructions p.instructions,
          .allLocations (ls.map (fun l => l.location_name))]) := by
  constructor <;> intro h <;> simp [renderHomescreen, h]

/-- The `homescreen` block that `Preview` returns never holds an enumeration of
location names. -/
theorem render_homescreen_no_location_list (p : Option Project) (ls : List Location)
    (s : SimState) : ∀ n ∈ (render p ls s).homescreen, n.isAllLocations = false := by
  intro n hn
  unfold render at hn
  cases p with
  | none => simp [Screen.homescreen] at hn
  | some p =>
    by_cases hl : ls.length = 0
    · simp [hl, Screen.homescreen] at hn
    · simp only [hl, if_false, Screen.homescreen, List.mem_append] at hn
      rcases hn with ((hn | hn) | hn) | hn
      · simp at hn
        rcases hn with rfl | rfl <;> rfl
      · split_ifs at hn
        · simp at hn; subst hn; rfl
        · simp at hn
      · simp at hn
        rcases hn with rfl | rfl <;> rfl
      · unfold renderLocationContent at hn
        cases hc : s.currentLocation with
        | none => simp [hc] at hn
        | some c =>
          simp only [hc, List.mem_append] at hn
          rcases hn with (hn | hn) | hn
          · simp at hn
            rcases hn with rfl | rfl | rfl <;> rfl
          · split_ifs at hn
            · simp at hn; subst hn; rfl
            · simp at hn
          · simp at hn; subst hn; rfl

/-- C15: in the Ready state with `homescreen_display = 'Display all locations'`
and locations A and B, `renderHomescreen` would show the names A and B, but the
`homescreen` block that `Preview` returns shows the title, the instructions, the
points, the visit counter and the current location only: the names of the
fetched locations are not enumerated. -/
theorem rendered_homescreen_omits_location_names :
    renderHomescreen
        { sampleProject "Not Scored" with homescreen_display := "Display all locations" }
        sampleAB =
      [.title "Tour", .instructions "Walk", .allLocations ["A", "B"]] ∧
    (render
        (some { sampleProject "Not Scored" with
                  homescreen_display := "Display all locations" })
        sampleAB (ready sampleAB)).homescreen =
      [.title "Tour", .instructions "Walk", .points 0, .locationsVisited 0 2,
        .locationName "A", .locationTrigger "Location Entry", .locationPosition "0, 0",
        .content ""] := by
  decide

/-! ## Simulator: visit counter -/

/-- C16: in every state reached from the fresh Ready state by selections,
every id in `visitedLocations` is the id of a fetched location and no id occurs
twice, so `visitedLocations.length` never exceeds `locations.length`; the
rendered counter shows these two numbers. -/
theorem visited_within_fetched (p : Project) (ls : List Location) (ids : List JsId) :
    (∀ i ∈ (simulate p ls ids (ready ls)).visitedLocations, ∃ l ∈ ls, l.id = i) ∧
    (simulate p ls ids (ready ls)).visitedLocations.Nodup ∧
    (simulate p ls ids (ready ls)).visitedLocations.length ≤ ls.length ∧
    (ls ≠ [] →
      Node.locationsVisited (simulate p ls ids (ready ls)).visitedLocations.length ls.length ∈
        (render (some p) ls (simulate p ls ids (ready ls))).homescreen) := by
  obtain ⟨hnd, hmem⟩ := simulate_ready_inv p ls ids
  have hknown : ∀ i ∈ (simulate p ls ids (ready ls)).visitedLocations, ∃ l ∈ ls, l.id = i :=
    fun i hi => ((hmem i).mp hi).2
  refine ⟨hknown, hnd, ?_, ?_⟩
  · have hsub : (simulate p ls ids (ready ls)).visitedLocations ⊆ ls.map (fun l => l.id) := by
      intro i hi
      obtain ⟨l, hl, hid⟩ := hknown i hi
      exact List.mem_map.mpr ⟨l, hl, hid⟩
    have := (List.subperm_of_subset hnd hsub).length_le
    simpa using this
  · intro hne
    have hlen : ls.length ≠ 0 := fun h => hne (List.length_eq_zero.mp h)
    simp [render, hlen, Screen.homescreen]

theorem visited_within_fetched_witness :
    sampleAB ≠ [] ∧
    Node.locationsVisited 2 2 ∈
      (render (some (sampleProject "Not Scored")) sampleAB
        (simulate (sampleProject "Not Scored") sampleAB
          [.str "B", .str "zzz", .str "A", .str "B"] (ready sampleAB))).homescreen :=
  ⟨by decide,
    (visited_within_fetched (sampleProject "Not Scored") sampleAB
      [.str "B", .str "zzz", .str "A", .str "B"]).2.2.2 (by decide)⟩

/-! ## Delete by index and delete by id -/

/-- C17: on a list with pairwise distinct ids and for an in-bounds index,
removing the entry at that index as `handleRemove` does gives the list that
filtering out the id at that index gives, and `handleDelete` with that id gives
the list that the copy-and-splice gives; with a repeated id the two differ. -/
theorem splice_agrees_with_filter_on_distinct_ids :
    (∀ (deleteProject : JsId → Bool) (s : ProjectListState) (i : Nat)
        (hi : i < s.projectList.length),
      (s.projectList.map (fun p => p.id)).Nodup →
      deleteProject s.projectList[i].id = true →
      (handleRemove deleteProject s.projectList[i].id i s).projectList =
        s.projectList.filter (fun p => decide (p.id ≠ s.projectList[i].id))) ∧
    (∀ (s : LocationListState) (i : Nat) (hi : i < s.locations.length),
      (s.locations.map (fun l => l.id)).Nodup →
      (handleDelete true s.locations[i].id s).locations = spliceOne i s.locations) ∧
    (handleDelete true (.num 1)
        { locations := [sampleLocation (.num 1) "A" 10, sampleLocation (.num 1) "B" 5],
          error := none, qrCodeLocation := none }).locations ≠
      spliceOne 0 [sampleLocation (.num 1) "A" 10, sampleLocation (.num 1) "B" 5] := by
  refine ⟨?_, ?_, by decide⟩
  · intro deleteProject s i hi hnd hok
    simp only [handleRemove, hok, if_true, spliceOne]
    exact eraseIdx_eq_filter_of_nodup (fun p : Project => p.id) s.projectList i hi hnd
  · intro s i hi hnd
    simp only [handleDelete, if_true, spliceOne]
    exact (eraseIdx_eq_filter_of_nodup (fun l : Location => l.id) s.locations i hi hnd).symm

theorem splice_agrees_with_filter_on_distinct_ids_witness :
    (sampleAB.map (fun l => l.id)).Nodup ∧
    (handleDelete true (.str "A")
        { locations := sampleAB, error := none, qrCodeLocation := none }).locations =
      spliceOne 0 sampleAB :=
  ⟨by decide,
    splice_agrees_with_filter_on_distinct_ids.2.1
      { locations := sampleAB, error := none, qrCodeLocation := none } 0 (by decide)
      (by decide)⟩

end StoryPath
